import Mathlib

/-!
Shallow embedding of the authentication / credential-lifecycle core of the
`accounts` app (src/accounts/views.py and src/accounts/serializers.py).

External collaborators (Django ORM user store, `django.contrib.auth.authenticate`,
`PasswordResetTokenGenerator`, simplejwt refresh tokens, the email sink) are
modelled symbolically, following the spec's description of them; the modelled
definitions carry doc comments saying so.  All control flow of the views and
serializers themselves is translated directly from the Python source.
-/

namespace Accounts

/-- Modelled from the spec: password hashing of the Credential Store.
`set_password` stores a salted hash of the plaintext; we model the hash as an
injective tagging function, which preserves exactly the property the spec
relies on: the stored hash is determined by the plaintext and differs between
different plaintexts. -/
def hashPw (p : String) : String := "pbkdf2:" ++ p

/-- The persisted user record (spec section 3; fields as in `accounts.models.User`
plus the migration `0003_user_otp_user_otp_created_at`).  Timestamps are modelled
as integer seconds. -/
structure User where
  id : Nat
  email : String
  full_name : String
  password_hash : String
  is_verified : Bool
  otp : Option String
  otp_created_at : Option Int
  deriving Repr, DecidableEq

/-- The Credential Store is an external keyed store of user records; we model its
contents as a list.  Django `get`/`filter` by a key is the first match. -/
def findByEmail (store : List User) (e : String) : Option User :=
  store.find? (fun u => u.email == e)

def findById (store : List User) (i : Nat) : Option User :=
  store.find? (fun u => u.id == i)

/-- Modelled from the spec: `user.save()` persists the mutated record under its
stable id, leaving every other record unchanged. -/
def storeUpdate (store : List User) (u : User) : List User :=
  store.map (fun v => if v.id == u.id then u else v)

/-- Exceptions that may escape the Python views uncaught. -/
inductive Exc where
  | doesNotExist
  | valueError
  | typeError
  | smtpError
  deriving Repr, DecidableEq

/-- Outcome of one HTTP request: either a handled response (status code plus the
user-facing message of its body), or an exception escaping the view uncaught. -/
inductive HttpResult where
  | resp (status : Nat) (msg : String)
  | fault (e : Exc)
  deriving Repr, DecidableEq

/-- Python truthiness test used by `if not otp_to_verify or not email`:
a missing field or an empty string is falsy. -/
def falsy : Option String → Bool
  | none => true
  | some s => s == ""

/-- The fixed OTP validity window: `timedelta(minutes=15)`, in seconds. -/
def otpWindowSecs : Int := 15 * 60

/-- `VerifyEmail.post` (src/accounts/views.py lines 59-83).  Input is the request
data (`otp`, `email`), plus the current time; output is the updated store, the
HTTP result, and the list of messages passed to `logger.error`.  The `try`
block catches only `User.DoesNotExist`; a comparison of `timezone.now()` with a
`None` `otp_created_at` would raise an uncaught `TypeError`. -/
def verifyEmailPost (store : List User) (now : Int)
    (otpArg emailArg : Option String) : List User × HttpResult × List String :=
  if falsy otpArg || falsy emailArg then
    (store, .resp 400 "OTP and email are required.", [])
  else
    let o := otpArg.getD ""
    let e := emailArg.getD ""
    match findByEmail store e with
    | none =>
      (store, .resp 400 "User does not exist.",
        ["User with email " ++ e ++ " does not exist."])
    | some u =>
      if u.otp == some o then
        match u.otp_created_at with
        | none => (store, .fault .typeError, [])
        | some t =>
          if now - t ≤ otpWindowSecs then
            (storeUpdate store { u with is_verified := true },
              .resp 200 "Email successfully verified", [])
          else
            (store, .resp 400 "Invalid or expired OTP.", [])
      else
        (store, .resp 400 "Invalid or expired OTP.", [])

/-- Modelled from the spec: `django.contrib.auth.authenticate` resolves the user
by email and checks the password against the stored hash, returning the user on
success and `None` on unknown email or wrong password (no distinction). -/
def authenticate (store : List User) (email password : String) : Option User :=
  match findByEmail store email with
  | none => none
  | some u => if u.password_hash == hashPw password then some u else none

/-- Modelled from the spec: `user.user_tokens()` issues a fresh access/refresh
signed-token pair encoding the user identity. -/
def mkAccessToken (u : User) : String := "access:" ++ toString u.id

/-- Modelled from the spec: refresh half of the issued session-token pair. -/
def mkRefreshToken (u : User) : String := "refresh:" ++ toString u.id

/-- Result of `LoginSerializer.validate`: either the returned payload, or an
`AuthenticationFailed` carrying the user-facing message. -/
inductive LoginResult where
  | ok (full_name email token refresh_token : String)
  | authFailed (msg : String)
  deriving Repr, DecidableEq

/-- `LoginSerializer.validate` (src/accounts/serializers.py lines 71-86). -/
def loginValidate (store : List User) (email password : String) : LoginResult :=
  match authenticate store email password with
  | none => .authFailed "Sorry the cerdentials are invalid"
  | some u =>
    if !u.is_verified then
      .authFailed "User's Email isn't verified"
    else
      .ok u.full_name u.email (mkAccessToken u) (mkRefreshToken u)

/-- Modelled from the spec: the signed, non-persisted reset token produced by
`PasswordResetTokenGenerator.make_token` is derived deterministically from user
state (user id and password hash) and verified by recomputation against the
current record; we model it as that pair of values.  The additional
timestamp-derived salt and expiry window of the generator are not modelled, as
no claim depends on elapsed-time expiry of reset tokens. -/
structure ResetToken where
  uid : Nat
  pwHash : String
  deriving Repr, DecidableEq

/-- Modelled from the spec: `PasswordResetTokenGenerator().make_token(user)`. -/
def make_token (u : User) : ResetToken := ⟨u.id, u.password_hash⟩

/-- Modelled from the spec: `PasswordResetTokenGenerator().check_token(user, token)`
recomputes the token from the user's current state and compares. -/
def check_token (u : User) (t : ResetToken) : Bool := t == make_token u

/-- The transported `uidb64` path/body value, abstracted by the outcome of
decoding it: either it decodes to a user id, or decoding raises.
`urlsafe_base64_decode` raises `ValueError` on malformed base64 (and the ORM
raises `ValueError` coercing a non-numeric decoded id), while
`smart_str`/`force_str` raise `DjangoUnicodeDecodeError` on non-UTF-8 bytes. -/
inductive Uidb64 where
  | ok (uid : Nat)
  | valueErr
  | unicodeErr
  deriving Repr, DecidableEq

/-- DRF `CharField(max_length=40, min_length=4)` bound used by the password
fields of `RegisterSerializer` and `NewPasswordSerializer`; field-level
validation runs before the serializer's `validate`. -/
def pwFieldOk (p : String) : Bool := 4 ≤ p.length && p.length ≤ 40

/-- What `NewPasswordSerializer.validate` evaluates to.  The crucial point,
taken directly from the source: the `except Exception:` arm RETURNS an
`AuthenticationFailed` instance instead of raising it, and it also catches the
two `raise AuthenticationFailed` statements inside the `try` block, so
`validate` never raises — it either returns the saved user or returns the
exception object as its "validated data". -/
inductive NPValidate where
  | returnedUser (u : User)
  | returnedExc (msg : String)
  deriving Repr, DecidableEq

/-- `NewPasswordSerializer.validate` (src/accounts/serializers.py lines 163-180).
Returns the updated store and the value `validate` returns.  Every failure of
decoding, lookup, token check, or password match lands in the `except` arm and
comes back as `returnedExc "The link is invalid/expired"`, with no mutation. -/
def newPasswordValidate (store : List User) (uidb64 : Uidb64) (token : ResetToken)
    (password password_confirm : String) : List User × NPValidate :=
  match uidb64 with
  | .ok uid =>
    match findById store uid with
    | none => (store, .returnedExc "The link is invalid/expired")
    | some u =>
      if !check_token u token then
        (store, .returnedExc "The link is invalid/expired")
      else if password != password_confirm then
        (store, .returnedExc "The link is invalid/expired")
      else
        let u' := { u with password_hash := hashPw password }
        (storeUpdate store u', .returnedUser u')
  | _ => (store, .returnedExc "The link is invalid/expired")

/-- `NewPasswordView.patch` (src/accounts/views.py lines 115-121).  Field-level
validation (password lengths, required fields) can still produce a 400, but
once `validate` runs, `is_valid` always succeeds — `validate` returns a
non-None object in every branch — so the view answers 200 with the success
message even when the link or the password confirmation was bad. -/
def newPasswordPatch (store : List User) (uidb64 : Uidb64) (token : ResetToken)
    (password password_confirm : String) : List User × HttpResult :=
  if !pwFieldOk password || !pwFieldOk password_confirm then
    (store, .resp 400 "field validation errors")
  else
    let r := newPasswordValidate store uidb64 token password password_confirm
    (r.1, .resp 200 "Your Password Reset Successfully")

/-- `ConfirmPasswordResetView.get` (src/accounts/views.py lines 102-112).  The
`try` block catches ONLY `DjangoUnicodeDecodeError`: a `ValueError` from
undecodable base64, and the `User.DoesNotExist` from a missing user, escape the
view uncaught.  The phase performs no store write; the unchanged store is
returned alongside the result to state that explicitly. -/
def confirmPasswordResetGet (store : List User) (uidb64 : Uidb64)
    (token : ResetToken) : List User × HttpResult :=
  match uidb64 with
  | .unicodeErr => (store, .resp 401 "token has expired")
  | .valueErr => (store, .fault .valueError)
  | .ok uid =>
    match findById store uid with
    | none => (store, .fault .doesNotExist)
    | some u =>
      if !check_token u token then
        (store, .resp 401 "Token is expired")
      else
        (store, .resp 200 "The credentials are valid")

/-- Outcome of `LogoutSerializer.save`: either the token was blacklisted, or
`RefreshToken(self.token)` raised `TokenError` and `self.fail("bad_token")` ran.
DRF's `Serializer.fail` RAISES `serializers.ValidationError` with the
`bad_token` message, so the `except TokenError: return self.fail(...)` arm is
an error, not a silent success. -/
inductive LogoutOutcome where
  | blacklisted
  | badToken
  deriving Repr, DecidableEq

/-- Modelled from the spec: constructing `RefreshToken(s)` verifies the signed
string (signature/expiry, abstracted by the `wellFormed` predicate) and checks
the revocation set, raising `TokenError` if the token is malformed, expired, or
already blacklisted.  `token.blacklist()` adds it to the revocation set.
`LogoutSerializer.save` (src/accounts/serializers.py lines 197-202). -/
def logoutSave (wellFormed : String → Bool) (blacklist : List String)
    (tok : String) : List String × LogoutOutcome :=
  if wellFormed tok && !blacklist.contains tok then
    (tok :: blacklist, .blacklisted)
  else
    (blacklist, .badToken)

/-- `LogoutView.post` (src/accounts/views.py lines 124-132): on a clean save it
answers 200 with an empty body; the `ValidationError` raised by
`self.fail("bad_token")` inside `save` is handled by DRF as a 400 response
carrying the `bad_token` message `"Token expired"`. -/
def logoutPost (wellFormed : String → Bool) (blacklist : List String)
    (tok : String) : List String × HttpResult :=
  match logoutSave wellFormed blacklist tok with
  | (bl, .blacklisted) => (bl, .resp 200 "")
  | (bl, .badToken) => (bl, .resp 400 "Token expired")

/-- Request body of `RegisterView.post`. -/
structure RegisterInput where
  full_name : String
  email : String
  password1 : String
  password2 : String
  deriving Repr, DecidableEq

/-- `RegisterView.post` (src/accounts/views.py lines 24-53) with
`RegisterSerializer` (src/accounts/serializers.py lines 14-48).  DRF field
validation (password length bounds, the model's unique-email validator) runs
first, then `validate` checks `password1 == password2`; `create_user` persists
the user with the hashed password, then the view stores a fresh OTP pair and
saves again.  `send_mail(..., fail_silently=False)` raises on sink failure and
nothing catches it, so the request dies with an uncaught `SMTPException` AFTER
the user (with its OTP) was persisted.  `freshId` is the id the store assigns,
`otp` the 6-character code drawn by `random.choices`, `sinkFails` whether the
notification sink errors. -/
def registerPost (store : List User) (freshId : Nat) (otp : String) (now : Int)
    (sinkFails : Bool) (inp : RegisterInput) : List User × HttpResult :=
  if !pwFieldOk inp.password1 || !pwFieldOk inp.password2 then
    (store, .resp 400 "field validation errors")
  else if (findByEmail store inp.email).isSome then
    (store, .resp 400 "user with this email already exists.")
  else if inp.password1 != inp.password2 then
    (store, .resp 400 "The password fields didn't match")
  else
    let u : User :=
      { id := freshId, email := inp.email, full_name := inp.full_name,
        password_hash := hashPw inp.password1, is_verified := false,
        otp := some otp, otp_created_at := some now }
    let store' := u :: store
    if sinkFails then
      (store', .fault .smtpError)
    else
      (store', .resp 201 ("Thanks for your Registration " ++ inp.full_name ++
        ", a verified code has been sent to your Email."))

/-- Request body of `UpdateInformationView.patch` (partial update). -/
structure UpdateInput where
  full_name : Option String
  email : Option String
  deriving Repr, DecidableEq

/-- `UpdateAccountInfoSerializer.validate_email` (src/accounts/serializers.py
lines 215-219): rejects the value whenever ANY user record with that email
exists — the queryset does not exclude the caller's own record. -/
def validate_email_dup (store : List User) (value : String) : Bool :=
  (findByEmail store value).isSome

/-- `UpdateInformationView.patch` (src/accounts/views.py lines 135-145): a
partial update of the authenticated caller's record; if an email is supplied
and `validate_email_dup` flags it, the view answers 400 with the duplicate
message and writes nothing. -/
def updateInformationPatch (store : List User) (caller : User)
    (inp : UpdateInput) : List User × HttpResult :=
  match inp.email with
  | some e =>
    if validate_email_dup store e then
      (store, .resp 400 "This email is already in use.")
    else
      let u' := { caller with
                  email := e,
                  full_name := inp.full_name.getD caller.full_name }
      (storeUpdate store u', .resp 200 "updated")
  | none =>
    match inp.full_name with
    | some fn =>
      (storeUpdate store { caller with full_name := fn }, .resp 200 "updated")
    | none => (store, .resp 200 "updated")

/-! ## Concrete sample records for evaluations -/

/-- A sample verified user with an issued OTP, used in concrete evaluations. -/
def uAlice : User :=
  { id := 1, email := "alice@mail.com", full_name := "Alice",
    password_hash := hashPw "oldpass", is_verified := true,
    otp := some "K7Q2ZD", otp_created_at := some 1000 }

/-- `uAlice` after her password was changed to `newpass`. -/
def uAliceNew : User := { uAlice with password_hash := hashPw "newpass" }

/-- An unverified sample user holding the password `pw5678`. -/
def uBob : User :=
  { id := 3, email := "bob@mail.com", full_name := "Bob",
    password_hash := hashPw "pw5678", is_verified := false,
    otp := some "ZZ9XY0", otp_created_at := some 0 }

/-- Classifies an `HttpResult` as a handled response (as opposed to an
exception escaping the view). -/
def isHandledResp : HttpResult → Bool
  | .resp _ _ => true
  | .fault _ => false

/-! ## Theorems for the claims -/

/-- Claim C1 (code evaluation at the failing input): after `uAlice`'s password
changes, her old reset token indeed no longer verifies (`check_token` is
recomputed from the current hash) and the stale token does not change the
stored password — but the `SetNewPassword` request still reports success with
HTTP 200 "Your Password Reset Successfully", because
`NewPasswordSerializer.validate` returns (instead of raising) the
`AuthenticationFailed`, so `is_valid(raise_exception=True)` succeeds. -/
theorem c1_stale_token_code_eval :
    check_token uAliceNew (make_token uAlice) = false
    ∧ newPasswordPatch [uAliceNew] (.ok 1) (make_token uAlice)
        "pw123456" "pw123456"
      = ([uAliceNew], .resp 200 "Your Password Reset Successfully") := by
  exact ⟨rfl, rfl⟩

/-- Claim C2 (code evaluation at the failing input): with a valid link but
`password ≠ password_confirm`, the `SetNewPassword` request reports success
(HTTP 200) instead of a mismatch error, though no password is stored; with
matching passwords the new password is hashed and stored as claimed. -/
theorem c2_mismatch_code_eval :
    newPasswordPatch [uAlice] (.ok 1) (make_token uAlice) "pw1234" "pw9999"
      = ([uAlice], .resp 200 "Your Password Reset Successfully")
    ∧ newPasswordPatch [uAlice] (.ok 1) (make_token uAlice) "pw1234" "pw1234"
      = ([{ uAlice with password_hash := hashPw "pw1234" }],
         .resp 200 "Your Password Reset Successfully") := by
  exact ⟨rfl, rfl⟩

/-- Claim C3, counterexample: a `ConfirmPasswordResetLink` request whose
`uidb64` decodes to an id with no user record does NOT produce a handled
invalid-link error — `User.DoesNotExist` escapes the view uncaught, since the
`try` block catches only `DjangoUnicodeDecodeError`. -/
theorem c3_counterexample :
    confirmPasswordResetGet [] (.ok 7) ⟨7, hashPw "x1"⟩
      = ([], .fault .doesNotExist)
    ∧ isHandledResp (.fault .doesNotExist) = false := by
  exact ⟨rfl, rfl⟩

/-- Claim C4, counterexample: logging out twice with the same refresh token is
not idempotent-success: the first call answers 200 and blacklists the token,
the second call answers 400 "Token expired" because `RefreshToken(...)` raises
`TokenError` on a blacklisted token and `self.fail("bad_token")` raises a
`ValidationError`. -/
theorem c4_counterexample :
    logoutPost (fun _ => true) [] "refresh:1" = (["refresh:1"], .resp 200 "")
    ∧ logoutPost (fun _ => true) ["refresh:1"] "refresh:1"
      = (["refresh:1"], .resp 400 "Token expired") := by
  exact ⟨rfl, rfl⟩

/-- Claim C7, counterexample: the OTP-verification error message for an
unknown email ("User does not exist.") differs from the failure message for an
existing user ("Invalid or expired OTP."), so the caller CAN tell whether an
account with that email exists. -/
theorem c7_counterexample :
    (verifyEmailPost [] 1000 (some "K7Q2ZD") (some "alice@mail.com")).2.1
      = .resp 400 "User does not exist."
    ∧ (verifyEmailPost [uAlice] 1000 (some "WRONG1") (some "alice@mail.com")).2.1
      = .resp 400 "Invalid or expired OTP."
    ∧ HttpResult.resp 400 "User does not exist."
        ≠ HttpResult.resp 400 "Invalid or expired OTP." := by
  exact ⟨rfl, rfl, by decide⟩

/-- Claim C9 (code evaluation at the failing input): when the notification sink
fails during registration, the created user record (with its OTP pair) does
persist, but the caller receives the uncaught `SMTPException` fault rather than
the 201 success — `send_mail` is called with `fail_silently=False` and nothing
catches it.  With a healthy sink the same input yields the 201 success. -/
theorem c9_sink_failure_code_eval :
    registerPost [] 2 "A1B2C3" 50 true
      ⟨"Jo", "jo@mail.com", "pw1234", "pw1234"⟩
      = ([{ id := 2, email := "jo@mail.com", full_name := "Jo",
            password_hash := hashPw "pw1234", is_verified := false,
            otp := some "A1B2C3", otp_created_at := some 50 }],
         .fault .smtpError)
    ∧ registerPost [] 2 "A1B2C3" 50 false
      ⟨"Jo", "jo@mail.com", "pw1234", "pw1234"⟩
      = ([{ id := 2, email := "jo@mail.com", full_name := "Jo",
            password_hash := hashPw "pw1234", is_verified := false,
            otp := some "A1B2C3", otp_created_at := some 50 }],
         .resp 201 "Thanks for your Registration Jo, a verified code has been sent to your Email.") := by
  exact ⟨rfl, rfl⟩

/-! ## Helper lemmas -/

/-- Unfolding of `VerifyEmail.post` once the two fields are present and
non-empty and the user lookup succeeds. -/
theorem verifyEmailPost_found (store : List User) (now : Int) (o e : String)
    (u : User) (ho : o ≠ "") (he : e ≠ "")
    (hfind : findByEmail store e = some u) :
    verifyEmailPost store now (some o) (some e) =
      if u.otp == some o then
        match u.otp_created_at with
        | none => (store, .fault .typeError, [])
        | some t =>
          if now - t ≤ otpWindowSecs then
            (storeUpdate store { u with is_verified := true },
              .resp 200 "Email successfully verified", [])
          else
            (store, .resp 400 "Invalid or expired OTP.", [])
      else
        (store, .resp 400 "Invalid or expired OTP.", []) := by
  have h1 : (falsy (some o) || falsy (some e)) = false := by
    simp [falsy, ho, he]
  simp only [verifyEmailPost, h1, Bool.false_eq_true, if_false, Option.getD_some, hfind]

/-- Unfolding of `VerifyEmail.post` for a found user with an issued OTP pair. -/
theorem verifyEmailPost_issued (store : List User) (now : Int) (o e : String)
    (u : User) (t : Int) (ho : o ≠ "") (he : e ≠ "")
    (hfind : findByEmail store e = some u)
    (ht : u.otp_created_at = some t) :
    verifyEmailPost store now (some o) (some e) =
      if u.otp == some o then
        if now - t ≤ otpWindowSecs then
          (storeUpdate store { u with is_verified := true },
            .resp 200 "Email successfully verified", [])
        else
          (store, .resp 400 "Invalid or expired OTP.", [])
      else
        (store, .resp 400 "Invalid or expired OTP.", []) := by
  rw [verifyEmailPost_found store now o e u ho he hfind, ht]

/-- A membership witness with the right email makes `findByEmail` succeed. -/
theorem findByEmail_isSome_of_mem {store : List User} {v : User} {e : String}
    (hv : v ∈ store) (he : v.email = e) : (findByEmail store e).isSome := by
  rw [findByEmail, List.find?_isSome]
  exact ⟨v, hv, by simp [he]⟩

/-- After `storeUpdate` replaces the found user with a record carrying the same
id and email, `findByEmail` finds the replacement — provided no other record in
the store shadows that id under a different email. -/
theorem findByEmail_storeUpdate (store : List User) (u u' : User) (e : String)
    (hfind : findByEmail store e = some u)
    (hid : u'.id = u.id) (hemail : u'.email = u.email)
    (huniq : ∀ v ∈ store, v.id = u.id → v.email = u.email) :
    findByEmail (storeUpdate store u') e = some u' := by
  have hue : u.email = e := by
    have := List.find?_some hfind
    simpa using this
  induction store with
  | nil => simp [findByEmail] at hfind
  | cons v rest ih =>
    by_cases hv : v.email = e
    · have hvu : v = u := by
        rw [findByEmail, List.find?_cons_of_pos rest (by simp [hv])] at hfind
        exact Option.some.injEq _ _ ▸ (by simpa using hfind)
      subst hvu
      simp only [storeUpdate, List.map_cons]
      rw [if_pos (by simp [hid])]
      rw [findByEmail, List.find?_cons_of_pos _ (by simp [hemail, hue])]
    · have hvid : ¬ v.id = u.id := by
        intro hcon
        exact hv ((huniq v (List.mem_cons_self v rest) hcon).trans hue)
      have hfind' : findByEmail rest e = some u := by
        rw [findByEmail, List.find?_cons_of_neg rest (by simp [hv])] at hfind
        exact hfind
      have huniq' : ∀ w ∈ rest, w.id = u.id → w.email = u.email :=
        fun w hw => huniq w (List.mem_cons_of_mem v hw)
      have := ih hfind' huniq'
      simp only [storeUpdate, List.map_cons]
      rw [if_neg (by simp [hid, hvid])]
      rw [findByEmail, List.find?_cons_of_neg _ (by simp [hv])]
      exact this

/-- Claim C5: for an existing user with an issued OTP pair, a verification
attempt with non-empty fields succeeds exactly when the submitted code equals
the stored one and the elapsed time is at most 15 minutes (900 s); in
particular every attempt at 15 minutes and 1 second or later fails with the
invalid-or-expired error regardless of code correctness, and on mismatch or
expiry the store is unchanged and the same invalid-or-expired error is
returned. -/
theorem c5_verify_otp_iff (store : List User) (now t : Int) (u : User)
    (o e : String) (ho : o ≠ "") (he : e ≠ "")
    (hfind : findByEmail store e = some u)
    (ht : u.otp_created_at = some t) :
    ((verifyEmailPost store now (some o) (some e)).2.1
        = .resp 200 "Email successfully verified"
      ↔ (u.otp = some o ∧ now - t ≤ otpWindowSecs))
    ∧ (otpWindowSecs + 1 ≤ now - t →
        (verifyEmailPost store now (some o) (some e)).2.1
          = .resp 400 "Invalid or expired OTP.")
    ∧ (¬ (u.otp = some o ∧ now - t ≤ otpWindowSecs) →
        (verifyEmailPost store now (some o) (some e)).1 = store
        ∧ (verifyEmailPost store now (some o) (some e)).2.1
            = .resp 400 "Invalid or expired OTP.") := by
  rw [verifyEmailPost_issued store now o e u t ho he hfind ht]
  by_cases hm : u.otp = some o
  · rw [if_pos (by simp [hm])]
    by_cases hw : now - t ≤ otpWindowSecs
    · rw [if_pos hw]
      refine ⟨by simp [hm, hw], fun hlate => absurd hw (by omega), ?_⟩
      intro hno; exact absurd ⟨hm, hw⟩ hno
    · rw [if_neg hw]
      exact ⟨by simp [hw], fun _ => rfl, fun _ => ⟨rfl, rfl⟩⟩
  · rw [if_neg (by simp [hm])]
    exact ⟨by simp [hm], fun _ => rfl, fun _ => ⟨rfl, rfl⟩⟩

/-- Witness for C5 at a concrete input: Alice's stored code at 901 seconds
after issuance (15 min 1 s) fails even though the code matches. -/
theorem c5_verify_otp_iff_witness :
    (verifyEmailPost [uAlice] 1901 (some "K7Q2ZD") (some "alice@mail.com")).2.1
      = .resp 400 "Invalid or expired OTP." := by
  have h := c5_verify_otp_iff [uAlice] 1901 1000 uAlice "K7Q2ZD" "alice@mail.com"
    (by decide) (by decide) (by rfl) (by rfl)
  exact h.2.1 (by decide)

/-- Claim C6: a successful OTP verification only flips `is_verified` to true —
the updated store is exactly the old one with that single field changed on the
matched record, `otp` and `otp_created_at` (and every other field) untouched;
consequently re-verifying the already-verified user with the same still-
matching code succeeds again within the 15-minute window and fails outside it.
(The id-uniqueness hypothesis `huniq` reflects the store's unique stable ids.) -/
theorem c6_verify_success_frame (store : List User) (now now2 t : Int)
    (u : User) (o e : String) (ho : o ≠ "") (he : e ≠ "")
    (hfind : findByEmail store e = some u)
    (ht : u.otp_created_at = some t)
    (hm : u.otp = some o)
    (hw : now - t ≤ otpWindowSecs)
    (huniq : ∀ v ∈ store, v.id = u.id → v.email = u.email) :
    (verifyEmailPost store now (some o) (some e)).1
      = storeUpdate store { u with is_verified := true }
    ∧ ({ u with is_verified := true }).otp = u.otp
    ∧ ({ u with is_verified := true }).otp_created_at = u.otp_created_at
    ∧ ({ u with is_verified := true }).id = u.id
    ∧ ({ u with is_verified := true }).email = u.email
    ∧ ({ u with is_verified := true }).full_name = u.full_name
    ∧ ({ u with is_verified := true }).password_hash = u.password_hash
    ∧ (now2 - t ≤ otpWindowSecs →
        (verifyEmailPost (verifyEmailPost store now (some o) (some e)).1 now2
            (some o) (some e)).2.1 = .resp 200 "Email successfully verified")
    ∧ (¬ now2 - t ≤ otpWindowSecs →
        (verifyEmailPost (verifyEmailPost store now (some o) (some e)).1 now2
            (some o) (some e)).2.1 = .resp 400 "Invalid or expired OTP.") := by
  have hstep : verifyEmailPost store now (some o) (some e)
      = (storeUpdate store { u with is_verified := true },
          .resp 200 "Email successfully verified", []) := by
    rw [verifyEmailPost_issued store now o e u t ho he hfind ht,
      if_pos (by simp [hm]), if_pos hw]
  have hfind' : findByEmail (storeUpdate store { u with is_verified := true }) e
      = some { u with is_verified := true } :=
    findByEmail_storeUpdate store u { u with is_verified := true } e hfind
      rfl rfl huniq
  have hstep2 : verifyEmailPost
      (storeUpdate store { u with is_verified := true }) now2 (some o) (some e)
      = if ({ u with is_verified := true }).otp == some o then
          if now2 - t ≤ otpWindowSecs then
            (storeUpdate (storeUpdate store { u with is_verified := true })
                { { u with is_verified := true } with is_verified := true },
              .resp 200 "Email successfully verified", [])
          else
            (storeUpdate store { u with is_verified := true },
              .resp 400 "Invalid or expired OTP.", [])
        else
          (storeUpdate store { u with is_verified := true },
            .resp 400 "Invalid or expired OTP.", []) :=
    verifyEmailPost_issued _ now2 o e _ t ho he hfind' ht
  refine ⟨by rw [hstep], rfl, rfl, rfl, rfl, rfl, rfl, ?_, ?_⟩
  · intro hw2
    rw [hstep, hstep2, if_pos (by simp [hm]), if_pos hw2]
  · intro hw2
    rw [hstep, hstep2, if_pos (by simp [hm]), if_neg hw2]

/-- Witness for C6 at a concrete input: verifying Alice's code at 100 seconds
after issuance flips only `is_verified`; re-verifying at 900 s succeeds and at
901 s fails. -/
theorem c6_verify_success_frame_witness :
    (verifyEmailPost [uAlice] 1100 (some "K7Q2ZD") (some "alice@mail.com")).1
      = storeUpdate [uAlice] { uAlice with is_verified := true }
    ∧ (verifyEmailPost
          (verifyEmailPost [uAlice] 1100 (some "K7Q2ZD") (some "alice@mail.com")).1
          1900 (some "K7Q2ZD") (some "alice@mail.com")).2.1
        = .resp 200 "Email successfully verified"
    ∧ (verifyEmailPost
          (verifyEmailPost [uAlice] 1100 (some "K7Q2ZD") (some "alice@mail.com")).1
          1901 (some "K7Q2ZD") (some "alice@mail.com")).2.1
        = .resp 400 "Invalid or expired OTP." := by
  have h1 := c6_verify_success_frame [uAlice] 1100 1900 1000 uAlice "K7Q2ZD"
    "alice@mail.com" (by decide) (by decide) rfl rfl rfl (by decide)
    (by intro v hv _; simp at hv; rw [hv])
  have h2 := c6_verify_success_frame [uAlice] 1100 1901 1000 uAlice "K7Q2ZD"
    "alice@mail.com" (by decide) (by decide) rfl rfl rfl (by decide)
    (by intro v hv _; simp at hv; rw [hv])
  exact ⟨h1.1, h1.2.2.2.2.2.2.2.1 (by decide), h2.2.2.2.2.2.2.2.2 (by decide)⟩

/-- Claim C3 (amended): `ConfirmPasswordResetView.get` never writes to the
store; a `DjangoUnicodeDecodeError` while decoding `uidb64` yields a handled
401 response, but a `ValueError` (undecodable base64 / non-numeric id) and a
missing user record escape the view as uncaught faults; for an existing user a
non-verifying token yields the handled 401 expired error and a verifying token
the 200 confirmation. -/
theorem c3_confirm_reset_behaviour (store : List User) (u : User) (uid : Nat)
    (t : ResetToken) (u64 : Uidb64) :
    (confirmPasswordResetGet store u64 t).1 = store
    ∧ confirmPasswordResetGet store .unicodeErr t
        = (store, .resp 401 "token has expired")
    ∧ confirmPasswordResetGet store .valueErr t
        = (store, .fault .valueError)
    ∧ (findById store uid = none →
        confirmPasswordResetGet store (.ok uid) t = (store, .fault .doesNotExist))
    ∧ (findById store uid = some u → check_token u t = false →
        confirmPasswordResetGet store (.ok uid) t
          = (store, .resp 401 "Token is expired"))
    ∧ (findById store uid = some u → check_token u t = true →
        confirmPasswordResetGet store (.ok uid) t
          = (store, .resp 200 "The credentials are valid")) := by
  refine ⟨?_, rfl, rfl, ?_, ?_, ?_⟩
  · cases u64 with
    | ok uid' =>
      simp only [confirmPasswordResetGet]
      cases hf : findById store uid' with
      | none => rfl
      | some v => by_cases hc : check_token v t <;> simp [hc]
    | valueErr => rfl
    | unicodeErr => rfl
  · intro hf; simp [confirmPasswordResetGet, hf]
  · intro hf hc; simp [confirmPasswordResetGet, hf, hc]
  · intro hf hc; simp [confirmPasswordResetGet, hf, hc]

/-- Witness for C3's amended theorem at concrete inputs: on the singleton
store holding Alice, id 2 is an uncaught `DoesNotExist` fault, a stale token
for id 1 is a handled 401, and her current token is accepted. -/
theorem c3_confirm_reset_behaviour_witness :
    confirmPasswordResetGet [uAlice] (.ok 2) (make_token uAlice)
      = ([uAlice], .fault .doesNotExist)
    ∧ confirmPasswordResetGet [uAlice] (.ok 1) ⟨1, hashPw "stale"⟩
      = ([uAlice], .resp 401 "Token is expired")
    ∧ confirmPasswordResetGet [uAlice] (.ok 1) (make_token uAlice)
      = ([uAlice], .resp 200 "The credentials are valid") := by
  have h := c3_confirm_reset_behaviour [uAlice] uAlice 2 (make_token uAlice)
    (.ok 2)
  have h1 := c3_confirm_reset_behaviour [uAlice] uAlice 1 ⟨1, hashPw "stale"⟩
    (.ok 1)
  have h2 := c3_confirm_reset_behaviour [uAlice] uAlice 1 (make_token uAlice)
    (.ok 1)
  exact ⟨h.2.2.2.1 rfl, h1.2.2.2.2.1 rfl (by decide), h2.2.2.2.2.2 rfl (by decide)⟩

/-- Claim C4 (amended): the first logout of a well-formed, not-yet-revoked
refresh token succeeds with 200 and adds it to the revocation set; a second
logout with the same token does NOT succeed — `RefreshToken(...)` raises
`TokenError` on the blacklisted token and `self.fail("bad_token")` raises a
`ValidationError`, so the view answers 400 "Token expired" — while the token
does remain revoked (the blacklist still contains it, unchanged). -/
theorem c4_second_logout_errors (wf : String → Bool) (bl : List String)
    (tok : String) (hwf : wf tok = true) (hbl : bl.contains tok = false) :
    logoutPost wf bl tok = (tok :: bl, .resp 200 "")
    ∧ logoutPost wf (tok :: bl) tok = (tok :: bl, .resp 400 "Token expired")
    ∧ (tok :: bl).contains tok = true := by
  have hbl' : tok ∉ bl := by simpa using hbl
  refine ⟨?_, ?_, by simp⟩
  · simp [logoutPost, logoutSave, hwf, hbl']
  · simp [logoutPost, logoutSave]

/-- Witness for C4's amended theorem at a concrete input. -/
theorem c4_second_logout_errors_witness :
    logoutPost (fun _ => true) [] "refresh:9" = (["refresh:9"], .resp 200 "")
    ∧ logoutPost (fun _ => true) ["refresh:9"] "refresh:9"
      = (["refresh:9"], .resp 400 "Token expired") := by
  have h := c4_second_logout_errors (fun _ => true) [] "refresh:9" rfl rfl
  exact ⟨h.1, h.2.1⟩

/-- Claim C7 (amended): an OTP-verification request for an email matching no
user fails with the 400 message "User does not exist." — a message that DOES
reveal that no account with that email exists, since existing-user failures
answer "Invalid or expired OTP." instead — and the identifying detail is also
written to the log. -/
theorem c7_unknown_email_message (store : List User) (now : Int) (o e : String)
    (ho : o ≠ "") (he : e ≠ "") (hnone : findByEmail store e = none) :
    verifyEmailPost store now (some o) (some e)
      = (store, .resp 400 "User does not exist.",
         ["User with email " ++ e ++ " does not exist."])
    ∧ "User does not exist." ≠ "Invalid or expired OTP." := by
  have h1 : (falsy (some o) || falsy (some e)) = false := by
    simp [falsy, ho, he]
  refine ⟨?_, by decide⟩
  simp only [verifyEmailPost, h1, Bool.false_eq_true, if_false, Option.getD_some, hnone]

/-- Witness for C7's amended theorem at a concrete input. -/
theorem c7_unknown_email_message_witness :
    verifyEmailPost [] 0 (some "K7Q2ZD") (some "ghost@mail.com")
      = ([], .resp 400 "User does not exist.",
         ["User with email " ++ "ghost@mail.com" ++ " does not exist."]) := by
  exact (c7_unknown_email_message [] 0 "K7Q2ZD" "ghost@mail.com"
    (by decide) (by decide) rfl).1

/-- Claim C8: login answers the one generic `AuthenticationFailed` message
"Sorry the cerdentials are invalid" both for an email matching no user and for
a correct email with a wrong password — the two results are identical, so the
caller cannot distinguish the cases — while correct credentials on an
unverified user answer the distinct "User's Email isn't verified" error. -/
theorem c8_login_indistinguishable (store : List User)
    (e1 p1 e2 p2 e3 p3 : String) (u2 u3 : User)
    (h1 : findByEmail store e1 = none)
    (h2 : findByEmail store e2 = some u2)
    (hp2 : u2.password_hash ≠ hashPw p2)
    (h3 : findByEmail store e3 = some u3)
    (hp3 : u3.password_hash = hashPw p3)
    (hv3 : u3.is_verified = false) :
    loginValidate store e1 p1 = .authFailed "Sorry the cerdentials are invalid"
    ∧ loginValidate store e2 p2 = .authFailed "Sorry the cerdentials are invalid"
    ∧ loginValidate store e1 p1 = loginValidate store e2 p2
    ∧ loginValidate store e3 p3 = .authFailed "User's Email isn't verified"
    ∧ LoginResult.authFailed "User's Email isn't verified"
        ≠ .authFailed "Sorry the cerdentials are invalid" := by
  have g1 : loginValidate store e1 p1
      = .authFailed "Sorry the cerdentials are invalid" := by
    simp [loginValidate, authenticate, h1]
  have g2 : loginValidate store e2 p2
      = .authFailed "Sorry the cerdentials are invalid" := by
    simp [loginValidate, authenticate, h2, hp2]
  have g3 : loginValidate store e3 p3
      = .authFailed "User's Email isn't verified" := by
    simp [loginValidate, authenticate, h3, hp3, hv3]
  exact ⟨g1, g2, g1.trans g2.symm, g3, by decide⟩

/-- Witness for C8 at concrete inputs: unknown email vs. Alice with a wrong
password give the identical error; Bob (unverified) with his correct password
gets the distinct not-verified error. -/
theorem c8_login_indistinguishable_witness :
    loginValidate [uAlice, uBob] "ghost@mail.com" "pw0000"
      = loginValidate [uAlice, uBob] "alice@mail.com" "wrongpw"
    ∧ loginValidate [uAlice, uBob] "bob@mail.com" "pw5678"
      = .authFailed "User's Email isn't verified" := by
  have h := c8_login_indistinguishable [uAlice, uBob] "ghost@mail.com" "pw0000"
    "alice@mail.com" "wrongpw" "bob@mail.com" "pw5678" uAlice uBob
    rfl rfl (by decide) rfl rfl rfl
  exact ⟨h.2.2.1, h.2.2.2.1⟩

/-- Claim C10: an authenticated account update supplying an email validates it
with `UpdateAccountInfoSerializer.validate_email`, which rejects whenever ANY
record with that email exists — the queryset does not exclude the caller — so
in particular resubmitting the caller's own current email fails with the
duplicate-email error, and nothing is written. -/
theorem c10_update_email_duplicate (store : List User) (caller : User)
    (inp : UpdateInput) (e : String)
    (he : inp.email = some e)
    (hex : ∃ v, v ∈ store ∧ v.email = e) :
    updateInformationPatch store caller inp
      = (store, .resp 400 "This email is already in use.") := by
  obtain ⟨v, hv, hve⟩ := hex
  have hdup : validate_email_dup store e = true :=
    findByEmail_isSome_of_mem hv hve
  simp [updateInformationPatch, he, hdup]

/-- Witness for C10 at a concrete input: Alice resubmitting her own unchanged
email is rejected with the duplicate-email error. -/
theorem c10_update_email_duplicate_witness :
    updateInformationPatch [uAlice] uAlice ⟨none, some "alice@mail.com"⟩
      = ([uAlice], .resp 400 "This email is already in use.") := by
  exact c10_update_email_duplicate [uAlice] uAlice ⟨none, some "alice@mail.com"⟩
    "alice@mail.com" rfl ⟨uAlice, by simp, rfl⟩

end Accounts
